import Mathlib

/-!
# Ledger-consistency core of the personal-finance application

Shallow embedding of the server actions in the repository:

* `src/unnamed/part_000` — `getAccountWithTransactions`, `bulkDeleteTransactions`,
  `updateDefaultAccount`;
* `src/unnamed/part_001` — two copies of `createAccount` (the second one also
  manages the database connection with `$connect`/`$disconnect` and additionally
  rejects negative balances).

Modelling conventions:

* Identity resolution (`auth()` + `db.user.findUnique({clerkUserId})`) and the
  abuse guard (`aj.protect`) are external collaborators; each operation is
  embedded from the point where the caller has been resolved to an internal
  `userId`, passed as the `u : Nat` argument.  `revalidatePath` calls are
  fire-and-forget view invalidation and have no effect on the store.
* Prisma `Decimal` values and JavaScript numbers are modelled as `Rat`;
  `serializeDecimal`/`serializeTransaction` (Decimal → number conversion) are
  the identity in this model.
* The store-generated unique id of a newly created row (a cuid) is passed as an
  explicit `nid : Nat` argument.
* `db.$transaction` blocks execute atomically; the two separate awaited
  statements of `updateDefaultAccount` (the `updateMany` clear and the `update`
  set) are NOT wrapped in a transaction in the source, and are embedded as two
  separate state changes: the clear commits even when the set fails.
* A Prisma `update` whose `where` matches no row throws `P2025`
  ("Record to update not found."); the surrounding `catch` converts it into
  `{success: false, error: error.message}`.
-/

/-- Transaction kind: `INCOME` increases the owning account's balance,
`EXPENSE` decreases it; deletion reverses that effect. -/
inductive TxType where
  | INCOME
  | EXPENSE
  deriving DecidableEq

/-- An `Account` row: `{id, userId, name, balance, isDefault}`.  Further
payload fields of the Prisma model (type, createdAt, ...) are carried through
unchanged by every operation and are omitted. -/
structure Account where
  id : Nat
  userId : Nat
  name : String
  balance : Rat
  isDefault : Bool
  deriving DecidableEq

/-- A `Transaction` row: `{id, accountId, userId, type, amount, date}`. -/
structure Transaction where
  id : Nat
  accountId : Nat
  userId : Nat
  ttype : TxType
  amount : Rat
  date : Nat
  deriving DecidableEq

/-- The relevant database state: account rows and transaction rows. -/
structure Store where
  accounts : List Account
  transactions : List Transaction
  deriving DecidableEq

/-- The serialized account object placed in a result's `data`: the spread of
the account row with `balance` converted from `Decimal` to a number and an
`amount` key as produced by the serializer.  A Prisma `Decimal` instance is an
object and hence truthy even at value 0, so the serializers' `balance` branch
always converts; an account row has no `amount` property, so the `amount` key
of the serialized object is the serializer's falsy-fallback.  `none` models
both an absent key and an `undefined` value (indistinguishable on property
access and over the JSON wire); `some 0` models the `$connect` copy's `0`
fallback. -/
structure SerializedAccount where
  id : Nat
  userId : Nat
  name : String
  balance : Rat
  amount : Option Rat
  isDefault : Bool
  deriving DecidableEq

/-- The uniform result shape `{success, data?, error?}` returned by the
server actions. -/
structure ActionResult where
  success : Bool
  data : Option SerializedAccount
  error : Option String
  deriving DecidableEq

/-- The `data` argument of `createAccount`: `{name, balance: string, isDefault}`. -/
structure CreateData where
  name : String
  balance : String
  isDefault : Bool
  deriving DecidableEq

/-- Embedding of `serializeDecimal` (in `src/unnamed/part_000`) applied to an
account row: `{...obj}` spread, then `balance` (a `Decimal` instance) is
overwritten with `toNumber()`; `obj.amount` is not a `Decimal` instance, so no
`amount` key is added. -/
def serializeDecimal (a : Account) : SerializedAccount :=
  ⟨a.id, a.userId, a.name, a.balance, none, a.isDefault⟩

/-- Embedding of `serializeTransaction` — first copy in `src/unnamed/part_001`
— applied to an account row: `balance` is truthy (a `Decimal` object) and
converted; the absent `amount` is falsy, so the copy's fallback `undefined` is
stored under the `amount` key. -/
def serializeTransaction (a : Account) : SerializedAccount :=
  ⟨a.id, a.userId, a.name, a.balance, none, a.isDefault⟩

/-- Embedding of `serializeTransaction` — `$connect`/`$disconnect` copy in
`src/unnamed/part_001` — applied to an account row: identical except that the
falsy-fallback is `0`, so the serialized object carries `amount: 0`. -/
def serializeTransaction' (a : Account) : SerializedAccount :=
  ⟨a.id, a.userId, a.name, a.balance, some 0, a.isDefault⟩

/-- Numeric value of a run of decimal digit characters. -/
def digitsVal (ds : List Char) : Nat :=
  ds.foldl (fun n c => 10 * n + (c.toNat - 48)) 0

/-- Longest-prefix parse of an unsigned decimal literal: integer digits with
an optional fraction part, at least one digit overall.  Returns the value and
the unconsumed rest of the input. -/
def parseUnsigned (cs : List Char) : Option (Rat × List Char) :=
  let ip := cs.takeWhile Char.isDigit
  let r1 := cs.dropWhile Char.isDigit
  match r1 with
  | '.' :: r2 =>
    let fp := r2.takeWhile Char.isDigit
    let r3 := r2.dropWhile Char.isDigit
    if ip.isEmpty && fp.isEmpty then none
    else some ((digitsVal ip : Rat) + (digitsVal fp : Rat) / ((10 : Rat) ^ fp.length), r3)
  | _ => if ip.isEmpty then none else some ((digitsVal ip : Rat), r1)

/-- Exponent digits after a leading `e`/`E` sign character has been consumed;
an exponent with no digits is not part of the accepted prefix and contributes 0. -/
def parseExpTail (cs : List Char) : Int :=
  match cs with
  | '-' :: r =>
    let ds := r.takeWhile Char.isDigit
    if ds.isEmpty then 0 else -(digitsVal ds : Int)
  | '+' :: r =>
    let ds := r.takeWhile Char.isDigit
    if ds.isEmpty then 0 else (digitsVal ds : Int)
  | _ =>
    let ds := cs.takeWhile Char.isDigit
    if ds.isEmpty then 0 else (digitsVal ds : Int)

/-- Optional exponent marker directly after the mantissa. -/
def parseExpVal (cs : List Char) : Int :=
  match cs with
  | 'e' :: r => parseExpTail r
  | 'E' :: r => parseExpTail r
  | _ => 0

/-- Scale a parsed mantissa by a decimal exponent. -/
def applyExp (x : Rat) (e : Int) : Rat :=
  if 0 ≤ e then x * (10 : Rat) ^ e.toNat else x / (10 : Rat) ^ (-e).toNat

/-- Model of JavaScript `parseFloat` on strings: skip leading whitespace, then
parse an optional sign and the longest decimal-literal prefix (digits, optional
fraction, optional exponent); trailing garbage is ignored.  `none` models `NaN`
(no parsable prefix).  `Infinity` literals are not modelled. -/
def parseFloat (s : String) : Option Rat :=
  let cs := s.data.dropWhile Char.isWhitespace
  match cs with
  | '-' :: r => (parseUnsigned r).map (fun p => -(applyExp p.1 (parseExpVal p.2)))
  | '+' :: r => (parseUnsigned r).map (fun p => applyExp p.1 (parseExpVal p.2))
  | _ => (parseUnsigned cs).map (fun p => applyExp p.1 (parseExpVal p.2))

/-- The `db.account.updateMany({where: {userId, isDefault: true}, data:
{isDefault: false}})` step shared by both `createAccount` copies and by
`updateDefaultAccount`. -/
def clearDefaults (u : Nat) (l : List Account) : List Account :=
  l.map (fun a => if a.userId == u && a.isDefault then { a with isDefault := false } else a)

/-- Embedding of `createAccount` — first copy in `src/unnamed/part_001` (no connection
management): fails when `parseFloat(data.balance)` is `NaN` (negative balances
are accepted), forces the default flag when the owner has no account yet,
clears existing defaults when the new account will be default, then inserts
the new account. -/
def createAccount (u : Nat) (d : CreateData) (nid : Nat) (s : Store) :
    ActionResult × Store :=
  match parseFloat d.balance with
  | none => (⟨false, none, some "Invalid balance amount"⟩, s)
  | some balanceFloat =>
    let existingAccounts := s.accounts.filter (fun a => a.userId == u)
    let shouldBeDefault := if existingAccounts.length = 0 then true else d.isDefault
    let accounts1 := if shouldBeDefault then clearDefaults u s.accounts else s.accounts
    let account : Account := ⟨nid, u, d.name, balanceFloat, shouldBeDefault⟩
    (⟨true, some (serializeTransaction account), none⟩,
     ⟨accounts1 ++ [account], s.transactions⟩)

/-- Embedding of `createAccount` — second copy in `src/unnamed/part_001` (with
`$connect`/`$disconnect`): identical except that the validation is
`isNaN(balanceFloat) || balanceFloat < 0`, so negative balances are also
rejected, and the returned row goes through this copy's `serializeTransaction`
(whose falsy-fallback is `0` instead of `undefined`). -/
def createAccount' (u : Nat) (d : CreateData) (nid : Nat) (s : Store) :
    ActionResult × Store :=
  match parseFloat d.balance with
  | none => (⟨false, none, some "Invalid balance amount"⟩, s)
  | some balanceFloat =>
    if balanceFloat < 0 then (⟨false, none, some "Invalid balance amount"⟩, s)
    else
      let existingAccounts := s.accounts.filter (fun a => a.userId == u)
      let shouldBeDefault := if existingAccounts.length = 0 then true else d.isDefault
      let accounts1 := if shouldBeDefault then clearDefaults u s.accounts else s.accounts
      let account : Account := ⟨nid, u, d.name, balanceFloat, shouldBeDefault⟩
      (⟨true, some (serializeTransaction' account), none⟩,
       ⟨accounts1 ++ [account], s.transactions⟩)

/-- Embedding of `updateDefaultAccount` (`setDefaultAccount` of the spec): first an
`updateMany` clears every default of the caller — this statement is awaited and
committed on its own, NOT inside a `db.$transaction` — then
`db.account.update({where: {id: accountId, userId}})` sets the new default.
When the update matches no row it throws `P2025`, the `catch` returns
`{success: false, error}`, and the already-committed clear step remains. -/
def updateDefaultAccount (u : Nat) (accountId : Nat) (s : Store) :
    ActionResult × Store :=
  let cleared := clearDefaults u s.accounts
  match cleared.find? (fun a => a.id == accountId && a.userId == u) with
  | none => (⟨false, none, some "Record to update not found."⟩, ⟨cleared, s.transactions⟩)
  | some a =>
    let accounts2 := cleared.map (fun b =>
      if b.id == accountId && b.userId == u then { b with isDefault := true } else b)
    (⟨true, some (serializeDecimal { a with isDefault := true }), none⟩,
     ⟨accounts2, s.transactions⟩)

/-- Signed balance change applied when the transaction is deleted
(`transaction.type === "EXPENSE" ? transaction.amount : -transaction.amount`):
deleting reverses the transaction's original effect on the balance. -/
def signedChange (t : Transaction) : Rat :=
  match t.ttype with
  | .EXPENSE => t.amount
  | .INCOME => -t.amount

/-- Step `acc[key] = (acc[key] || 0) + c` of the JavaScript `reduce`: add `c` into the entry for `key` of a
JavaScript object modelled as an association list in first-insertion order. -/
def addChange (acc : List (Nat × Rat)) (key : Nat) (c : Rat) : List (Nat × Rat) :=
  match acc with
  | [] => [(key, c)]
  | (k, v) :: rest =>
    if k == key then (k, v + c) :: rest else (k, v) :: addChange rest key c

/-- The `findMany({where: {id: {in: transactionIds}, userId}})` resolution
step of `bulkDeleteTransactions`. -/
def resolvedTxs (u : Nat) (ids : List Nat) (s : Store) : List Transaction :=
  s.transactions.filter (fun t => ids.contains t.id && t.userId == u)

/-- Embedding of `bulkDeleteTransactions`: resolve the requested ids to rows owned by the
caller; on an empty resolution fail with "No transactions found to delete" and
change nothing.  Otherwise group the resolved rows by `accountId` with the
reversing sign (`accountBalanceChanges`), and inside one `db.$transaction`
delete the resolved rows and apply each per-account delta as an atomic
`increment`.  The store enforces referential integrity, but a group key that
resolved to no account row would make the `update` throw and abort the whole
transaction, which the `catch` converts to `{success: false, error.message}`
with the store unchanged. -/
def bulkDeleteTransactions (u : Nat) (ids : List Nat) (s : Store) :
    ActionResult × Store :=
  let transactions := resolvedTxs u ids s
  if transactions.isEmpty then
    (⟨false, none, some "No transactions found to delete"⟩, s)
  else
    let accountBalanceChanges :=
      transactions.foldl (fun acc t => addChange acc t.accountId (signedChange t)) []
    if accountBalanceChanges.all (fun p => s.accounts.any (fun a => a.id == p.1)) then
      (⟨true, none, none⟩,
       ⟨accountBalanceChanges.foldl
          (fun accts p => accts.map (fun a =>
            if a.id == p.1 then { a with balance := a.balance + p.2 } else a))
          s.accounts,
        s.transactions.filter (fun t => !(ids.contains t.id && t.userId == u))⟩)
    else
      (⟨false, none, some "Record to update not found."⟩, s)

/-- Stable insertion of a transaction into a list sorted by `date` descending. -/
def insertByDateDesc (t : Transaction) : List Transaction → List Transaction
  | [] => [t]
  | x :: rest =>
    if x.date < t.date then t :: x :: rest else x :: insertByDateDesc t rest

/-- Embedding of `orderBy: {date: "desc"}` on a transaction list. -/
def sortByDateDesc : List Transaction → List Transaction
  | [] => []
  | t :: rest => insertByDateDesc t (sortByDateDesc rest)

/-- Embedding of `getAccountWithTransactions` (`fetchAccountWithTransactions` of the spec):
one `findUnique` whose `where` combines `id: accountId` and `userId` — account
existence and ownership are checked together — with the related transactions
included ordered by date descending; `null` when no such owned account exists.
The serialized `_count.transactions` field is the length of the returned list
and is omitted. -/
def getAccountWithTransactions (u : Nat) (accountId : Nat) (s : Store) :
    Option (Account × List Transaction) :=
  match s.accounts.find? (fun a => a.id == accountId && a.userId == u) with
  | none => none
  | some a => some (a, sortByDateDesc (s.transactions.filter (fun t => t.accountId == a.id)))

/-- The accounts of user `u` (`findMany({where: {userId}})`, order irrelevant). -/
def userAccounts (s : Store) (u : Nat) : List Account :=
  s.accounts.filter (fun a => a.userId == u)

/-- Number of accounts of user `u` currently flagged as the default. -/
def defaultCount (s : Store) (u : Nat) : Nat :=
  ((userAccounts s u).filter (fun a => a.isDefault)).length

/-- One call of the default-account surface for a fixed user: `createAccount`
(first copy) with the store-generated id of the new row made explicit, or
`updateDefaultAccount`. -/
inductive AcctOp where
  | create (d : CreateData) (nid : Nat)
  | setDefault (accountId : Nat)
  deriving DecidableEq

/-- State reached after one `AcctOp` call of user `u` runs to completion
(the returned result is discarded). -/
def applyAcctOp (u : Nat) (s : Store) : AcctOp → Store
  | .create d nid => (createAccount u d nid s).2
  | .setDefault aid => (updateDefaultAccount u aid s).2

/-- State reached after a sequence of `AcctOp` calls of user `u`. -/
def runAcctOps (u : Nat) (s : Store) (ops : List AcctOp) : Store :=
  ops.foldl (applyAcctOp u) s

/-- Side conditions of a run of `AcctOp`s: every `create` is given a fresh
store-generated id (the database generates unique cuids), and every
`setDefault` names an account owned by `u` at the moment of the call (i.e. it
succeeds). -/
def okAcctRun (u : Nat) (s : Store) : List AcctOp → Bool
  | [] => true
  | .create d nid :: rest =>
    s.accounts.all (fun a => !(a.id == nid)) &&
      okAcctRun u (applyAcctOp u s (.create d nid)) rest
  | .setDefault aid :: rest =>
    s.accounts.any (fun a => a.id == aid && a.userId == u) &&
      okAcctRun u (applyAcctOp u s (.setDefault aid)) rest

/-- Default-singleton invariant for user `u`: the ids of the accounts of `u`
are distinct (store-generated), and if `u` has at least one account then
exactly one of them is flagged default. -/
def DefOk (u : Nat) (s : Store) : Prop :=
  ((userAccounts s u).map (fun a => a.id)).Nodup ∧
    (userAccounts s u ≠ [] → defaultCount s u = 1)

example : parseFloat "100" = some 100 := by
  simp +decide [parseFloat, parseUnsigned, parseExpVal, parseExpTail, applyExp, digitsVal]

example : parseFloat "-5" = some (-5) := by
  simp +decide [parseFloat, parseUnsigned, parseExpVal, parseExpTail, applyExp, digitsVal]

example : parseFloat "abc" = none := by
  simp +decide [parseFloat, parseUnsigned, parseExpVal, parseExpTail, applyExp, digitsVal]

example : parseFloat "12.5" = some (25 / 2) := by
  simp +decide [parseFloat, parseUnsigned, parseExpVal, parseExpTail, applyExp, digitsVal]
  norm_num

example : parseFloat " 3x" = some 3 := by
  simp +decide [parseFloat, parseUnsigned, parseExpVal, parseExpTail, applyExp, digitsVal]

example : parseFloat "2e2" = some 200 := by
  simp +decide [parseFloat, parseUnsigned, parseExpVal, parseExpTail, applyExp, digitsVal]
  norm_num

example : parseFloat "" = none := by
  simp +decide [parseFloat, parseUnsigned, parseExpVal, parseExpTail, applyExp, digitsVal]

/-! ## General list lemmas -/

/-- Splitting a sum over a list along a Boolean predicate. -/
theorem sum_map_filter_split (l : List Transaction) (f : Transaction → Rat)
    (p : Transaction → Bool) :
    ((l.filter p).map f).sum + ((l.filter (fun x => !(p x))).map f).sum = (l.map f).sum := by
  induction l with
  | nil => simp
  | cons x xs ih =>
    rw [List.filter_cons, List.filter_cons]
    by_cases hx : p x = true
    · rw [if_pos (by simp [hx]), if_neg (by simp [hx])]
      simp only [List.map_cons, List.sum_cons]
      linarith [ih]
    · rw [if_neg (by simp [hx]), if_pos (by simp [Bool.not_eq_true] at hx ⊢; exact hx)]
      simp only [List.map_cons, List.sum_cons]
      linarith [ih]

/-- A `find?` whose predicate implies the filtering predicate may look in the
filtered list instead. -/
theorem find?_filter_of_imp (l : List Account) (p q : Account → Bool)
    (h : ∀ a, p a = true → q a = true) :
    (l.filter q).find? p = l.find? p := by
  induction l with
  | nil => simp
  | cons a as ih =>
    by_cases hp : p a = true
    · simp [List.filter_cons, h a hp, List.find?_cons, hp]
    · by_cases hq : q a = true
      · simp [List.filter_cons, hq, List.find?_cons, hp, ih]
      · simp [List.filter_cons, hq, List.find?_cons, hp, ih]

/-! ## Characterization of the grouped balance changes -/

/-- When no requested id resolves, the operation fails early and mutates
nothing. -/
theorem bulkDelete_of_resolved_nil (u : Nat) (ids : List Nat) (s : Store)
    (h : resolvedTxs u ids s = []) :
    bulkDeleteTransactions u ids s =
      (⟨false, none, some "No transactions found to delete"⟩, s) := by
  simp only [bulkDeleteTransactions, h, List.isEmpty_nil, if_pos]

/-- C5: when no id resolves to an owned transaction (empty selection or
foreign-owned ids), the operation returns the fixed failure result and
performs no store mutation. -/
theorem bulkDelete_empty_selection (u : Nat) (ids : List Nat) (s : Store)
    (h : ∀ t ∈ s.transactions, ¬(t.id ∈ ids ∧ t.userId = u)) :
    bulkDeleteTransactions u ids s =
      (⟨false, none, some "No transactions found to delete"⟩, s) := by
  apply bulkDelete_of_resolved_nil
  rw [resolvedTxs, List.filter_eq_nil_iff]
  intro t ht
  simp only [Bool.and_eq_true, beq_iff_eq, List.contains_eq_any_beq, List.any_eq_true, not_and]
  intro hcon hu
  refine h t ht ⟨?_, hu⟩
  obtain ⟨x, hx, hbx⟩ := hcon
  rw [show t.id = x from by simpa using hbx]
  exact hx

/-- Witness for C5: a store holding a foreign-owned transaction; the caller's
delete of that id (and of nothing) fails with the fixed error and leaves the
store unchanged. -/
theorem bulkDelete_empty_selection_witness :
    bulkDeleteTransactions 1 [7]
        ⟨[⟨1, 1, "A", 10, true⟩], [⟨7, 3, 2, .EXPENSE, 4, 0⟩]⟩ =
      (⟨false, none, some "No transactions found to delete"⟩,
       ⟨[⟨1, 1, "A", 10, true⟩], [⟨7, 3, 2, .EXPENSE, 4, 0⟩]⟩) :=
  bulkDelete_empty_selection 1 [7]
    ⟨[⟨1, 1, "A", 10, true⟩], [⟨7, 3, 2, .EXPENSE, 4, 0⟩]⟩ (by decide)

/-- After a successful bulk delete, the surviving transactions are exactly the
rows that did not match the resolution filter. -/
theorem bulkDelete_success_inv (u : Nat) (ids : List Nat) (s : Store)
    (h : (bulkDeleteTransactions u ids s).1.success = true) :
    (bulkDeleteTransactions u ids s).2.transactions =
      s.transactions.filter (fun t => !(ids.contains t.id && t.userId == u)) := by
  simp only [bulkDeleteTransactions] at h ⊢
  by_cases h1 : (resolvedTxs u ids s).isEmpty = true
  · rw [if_pos h1] at h
    simp at h
  · rw [if_neg h1] at h ⊢
    by_cases h2 : (((resolvedTxs u ids s).foldl
        (fun acc t => addChange acc t.accountId (signedChange t)) []).all
          (fun p => s.accounts.any (fun a => a.id == p.1))) = true
    · rw [if_pos h2]
    · rw [if_neg h2] at h
      simp at h

/-- C6: a successful bulk delete followed by the same request yields the
EmptySelection failure the second time and leaves the store (in particular
every balance) unchanged. -/
theorem bulkDelete_idempotent (u : Nat) (ids : List Nat) (s : Store)
    (h : (bulkDeleteTransactions u ids s).1.success = true) :
    bulkDeleteTransactions u ids (bulkDeleteTransactions u ids s).2 =
      (⟨false, none, some "No transactions found to delete"⟩,
       (bulkDeleteTransactions u ids s).2) := by
  apply bulkDelete_of_resolved_nil
  rw [resolvedTxs, bulkDelete_success_inv u ids s h, List.filter_filter]
  simp

/-- Witness for C6: deleting the only transaction succeeds; repeating the same
request fails with EmptySelection and changes nothing. -/
theorem bulkDelete_idempotent_witness :
    bulkDeleteTransactions 1 [1]
        (bulkDeleteTransactions 1 [1] ⟨[⟨1, 1, "A", 10, true⟩], [⟨1, 1, 1, .EXPENSE, 5, 0⟩]⟩).2 =
      (⟨false, none, some "No transactions found to delete"⟩,
       (bulkDeleteTransactions 1 [1] ⟨[⟨1, 1, "A", 10, true⟩], [⟨1, 1, 1, .EXPENSE, 5, 0⟩]⟩).2) :=
  bulkDelete_idempotent 1 [1] ⟨[⟨1, 1, "A", 10, true⟩], [⟨1, 1, 1, .EXPENSE, 5, 0⟩]⟩ (by decide)

/-- C2 (failing input): with one owned default account and an unresolvable
`accountId`, `updateDefaultAccount` returns the failure result but the
already-committed clear step persists — the previous default is lost, so the
flags are NOT left exactly as they were. -/
theorem updateDefault_notfound_clears_default :
    updateDefaultAccount 1 999 ⟨[⟨1, 1, "A", 0, true⟩], []⟩ =
      (⟨false, none, some "Record to update not found."⟩, ⟨[⟨1, 1, "A", 0, false⟩], []⟩) := by
  simp +decide [updateDefaultAccount, clearDefaults]

/-- C7 (amended): the connection-managed copy fails exactly when the balance
string is unparsable or parses negative and then changes nothing; on failure
nothing is inserted; the first copy accepts every parsable balance, negative
ones included. -/
theorem createAccount_validation_spec (u : Nat) (d : CreateData) (nid : Nat) (s : Store) :
    ((createAccount' u d nid s).1.success = true ↔
      ∃ v, parseFloat d.balance = some v ∧ 0 ≤ v) ∧
    ((createAccount' u d nid s).1.success = false →
      createAccount' u d nid s = (⟨false, none, some "Invalid balance amount"⟩, s)) ∧
    ((createAccount u d nid s).1.success = true ↔ parseFloat d.balance ≠ none) := by
  rcases hp : parseFloat d.balance with _ | v
  · refine ⟨?_, ?_, ?_⟩ <;> simp [createAccount, createAccount', hp]
  · by_cases hv : v < 0
    · refine ⟨?_, ?_, ?_⟩
      · simp only [createAccount', hp]
        rw [if_pos hv]
        simp only [Option.some.injEq]
        constructor
        · intro hcon
          exact absurd hcon (by simp)
        · rintro ⟨x, rfl, hx⟩
          exact absurd (lt_of_le_of_lt hx hv) (lt_irrefl 0)
      · intro _
        simp only [createAccount', hp]
        rw [if_pos hv]
      · simp [createAccount, hp]
    · refine ⟨?_, ?_, ?_⟩
      · simp only [createAccount', hp]
        rw [if_neg hv]
        simp [le_of_not_lt hv]
      · intro hcon
        simp only [createAccount', hp] at hcon
        rw [if_neg hv] at hcon
        simp at hcon
      · simp [createAccount, hp]

/-- Witness for C7: on the balance string "-5" the connection-managed copy
fails while the first copy succeeds. -/
theorem createAccount_validation_spec_witness :
    (createAccount' 1 ⟨"X", "-5", false⟩ 1 ⟨[], []⟩).1.success = false ∧
    (createAccount 1 ⟨"X", "-5", false⟩ 1 ⟨[], []⟩).1.success = true := by
  have h := createAccount_validation_spec 1 ⟨"X", "-5", false⟩ 1 ⟨[], []⟩
  have hp : parseFloat "-5" = some (-5 : Rat) := by
    simp +decide [parseFloat, parseUnsigned, parseExpVal, parseExpTail, applyExp, digitsVal]
  constructor
  · cases hs : (createAccount' 1 ⟨"X", "-5", false⟩ 1 ⟨[], []⟩).1.success
    · rfl
    · exfalso
      obtain ⟨v, hveq, hv0⟩ := h.1.mp hs
      rw [hp] at hveq
      obtain rfl := Option.some.inj hveq
      norm_num at hv0
  · exact h.2.2.mpr (by rw [hp]; simp)

/-- C7 (counterexample to the claim as stated): `createAccount` (the copy the
claim's first source points at) accepts the negative balance "-5" and inserts
an account with a negative balance instead of failing. -/
theorem createAccount_negative_accepted_cex :
    (createAccount 1 ⟨"X", "-5", false⟩ 1 ⟨[], []⟩).1.success = true ∧
    (createAccount 1 ⟨"X", "-5", false⟩ 1 ⟨[], []⟩).2.accounts = [⟨1, 1, "X", -5, true⟩] ∧
    ((-5 : Rat) < 0) := by
  refine ⟨?_, ?_, by norm_num⟩
  · simp +decide [createAccount, clearDefaults, parseFloat, parseUnsigned, parseExpVal,
      parseExpTail, applyExp, digitsVal]
  · simp +decide [createAccount, clearDefaults, parseFloat, parseUnsigned, parseExpVal,
      parseExpTail, applyExp, digitsVal]

/-- C8: the created account is forced to be the default when the owner has no
account yet, regardless of the requested flag; otherwise the flag equals the
requested one. -/
theorem createAccount_bootstrap_default (u : Nat) (d : CreateData) (nid : Nat) (s : Store)
    (v : Rat) (hv : parseFloat d.balance = some v) :
    (createAccount u d nid s).1.data =
      some ⟨nid, u, d.name, v, none,
        if (s.accounts.filter (fun a => a.userId == u)).length = 0 then true
        else d.isDefault⟩ := by
  simp [createAccount, hv, serializeTransaction]

/-- Witness for C8: a first account requested with `isDefault = false` is
created with `isDefault = true`. -/
theorem createAccount_bootstrap_default_witness :
    parseFloat "0" = some 0 ∧
    (createAccount 1 ⟨"First", "0", false⟩ 5 ⟨[], []⟩).1.data =
      some ⟨5, 1, "First", 0, none, true⟩ := by
  have hp : parseFloat "0" = some (0 : Rat) := by
    simp +decide [parseFloat, parseUnsigned, parseExpVal, parseExpTail, applyExp, digitsVal]
  refine ⟨hp, ?_⟩
  rw [createAccount_bootstrap_default 1 ⟨"First", "0", false⟩ 5 ⟨[], []⟩ 0 hp]
  simp

/-- C10 (amended): the two `createAccount` copies return identical results
only when the balance string is unparsable (both fail with the same error and
no mutation).  When it parses non-negative, both succeed with the same store
mutation, but their serialized `data` differs on every such input: the first
copy's serializer leaves `amount` as `undefined` while the `$connect` copy's
injects `amount: 0`.  When it parses negative, the first copy succeeds while
the `$connect` copy fails.  In particular the copies neither accept the same
balance strings nor return the same result on any successful call. -/
theorem createAccount_copies_spec (u : Nat) (d : CreateData) (nid : Nat) (s : Store) :
    (parseFloat d.balance = none →
      createAccount' u d nid s = createAccount u d nid s) ∧
    (∀ v, parseFloat d.balance = some v → 0 ≤ v →
      (createAccount' u d nid s).2 = (createAccount u d nid s).2 ∧
      (createAccount u d nid s).1.success = true ∧
      (createAccount' u d nid s).1.success = true ∧
      (createAccount u d nid s).1.data =
        some ⟨nid, u, d.name, v, none,
          if (s.accounts.filter (fun a => a.userId == u)).length = 0 then true
          else d.isDefault⟩ ∧
      (createAccount' u d nid s).1.data =
        some ⟨nid, u, d.name, v, some 0,
          if (s.accounts.filter (fun a => a.userId == u)).length = 0 then true
          else d.isDefault⟩ ∧
      (createAccount' u d nid s).1.data ≠ (createAccount u d nid s).1.data) ∧
    (∀ v, parseFloat d.balance = some v → v < 0 →
      (createAccount u d nid s).1.success = true ∧
      (createAccount' u d nid s).1.success = false) := by
  refine ⟨?_, ?_, ?_⟩
  · intro hp
    simp [createAccount, createAccount', hp]
  · intro v hp hv0
    have hv : ¬v < 0 := not_lt.mpr hv0
    refine ⟨?_, ?_, ?_, ?_, ?_, ?_⟩
    · simp [createAccount, createAccount', hp, hv]
    · simp [createAccount, hp]
    · simp [createAccount', hp, hv]
    · simp [createAccount, hp, serializeTransaction]
    · simp [createAccount', hp, hv, serializeTransaction']
    · simp [createAccount, createAccount', hp, hv, serializeTransaction,
        serializeTransaction']
  · intro v hp hv
    constructor
    · simp [createAccount, hp]
    · simp [createAccount', hp, hv]

/-- Witness for C10: on the balance string "100" both copies succeed with the
same store, but the first copy's data carries `amount = undefined` while the
`$connect` copy's carries `amount = 0`. -/
theorem createAccount_copies_spec_witness :
    (createAccount' 1 ⟨"X", "100", false⟩ 1 ⟨[], []⟩).2 =
      (createAccount 1 ⟨"X", "100", false⟩ 1 ⟨[], []⟩).2 ∧
    (createAccount 1 ⟨"X", "100", false⟩ 1 ⟨[], []⟩).1.data =
      some ⟨1, 1, "X", 100, none, true⟩ ∧
    (createAccount' 1 ⟨"X", "100", false⟩ 1 ⟨[], []⟩).1.data =
      some ⟨1, 1, "X", 100, some 0, true⟩ ∧
    (createAccount' 1 ⟨"X", "100", false⟩ 1 ⟨[], []⟩).1.data ≠
      (createAccount 1 ⟨"X", "100", false⟩ 1 ⟨[], []⟩).1.data := by
  have hp : parseFloat "100" = some (100 : Rat) := by
    simp +decide [parseFloat, parseUnsigned, parseExpVal, parseExpTail, applyExp, digitsVal]
  have h := (createAccount_copies_spec 1 ⟨"X", "100", false⟩ 1 ⟨[], []⟩).2.1
    100 hp (by norm_num)
  obtain ⟨h1, _, _, h4, h5, h6⟩ := h
  refine ⟨h1, ?_, ?_, h6⟩
  · rw [h4]
    simp
  · rw [h5]
    simp

/-- C10 (counterexample to the claim as stated): the two copies return
different results both on the balance string "-5" (accepted by the first copy,
rejected by the other) and on the accepted balance string "100" (the
serialized `amount` differs). -/
theorem createAccount_copies_differ_cex :
    createAccount 1 ⟨"X", "-5", false⟩ 1 ⟨[], []⟩ ≠
      createAccount' 1 ⟨"X", "-5", false⟩ 1 ⟨[], []⟩ ∧
    createAccount 1 ⟨"X", "100", false⟩ 1 ⟨[], []⟩ ≠
      createAccount' 1 ⟨"X", "100", false⟩ 1 ⟨[], []⟩ := by
  constructor
  · simp +decide [createAccount, createAccount', clearDefaults, parseFloat, parseUnsigned,
      parseExpVal, parseExpTail, applyExp, digitsVal, serializeTransaction,
      serializeTransaction']
  · simp +decide [createAccount, createAccount', clearDefaults, parseFloat, parseUnsigned,
      parseExpVal, parseExpTail, applyExp, digitsVal, serializeTransaction,
      serializeTransaction']

/-- C9: the read path returns `none` uniformly whenever the requested id does
not resolve to an account owned by the caller (nonexistent or foreign-owned),
and its result depends only on the caller's own accounts and the transaction
table — two stores that differ only in other users' accounts are
indistinguishable to the caller. -/
theorem account_ownership_isolation :
    (∀ u aid s, (∀ a ∈ s.accounts, ¬(a.id = aid ∧ a.userId = u)) →
        getAccountWithTransactions u aid s = none) ∧
    (∀ u aid s1 s2,
        s1.accounts.filter (fun a => a.userId == u) =
          s2.accounts.filter (fun a => a.userId == u) →
        s1.transactions = s2.transactions →
        getAccountWithTransactions u aid s1 = getAccountWithTransactions u aid s2) := by
  constructor
  · intro u aid s h
    have hf : s.accounts.find? (fun a => a.id == aid && a.userId == u) = none := by
      rw [List.find?_eq_none]
      intro a ha
      simp only [Bool.and_eq_true, beq_iff_eq, not_and]
      intro h1 h2
      exact h a ha ⟨h1, h2⟩
    simp [getAccountWithTransactions, hf]
  · intro u aid s1 s2 hacc htx
    have himp : ∀ a : Account, (a.id == aid && a.userId == u) = true →
        (a.userId == u) = true := by
      intro a h
      rw [Bool.and_eq_true] at h
      exact h.2
    have hf : s1.accounts.find? (fun a => a.id == aid && a.userId == u) =
        s2.accounts.find? (fun a => a.id == aid && a.userId == u) := by
      rw [← find?_filter_of_imp s1.accounts _ _ himp,
        ← find?_filter_of_imp s2.accounts _ _ himp, hacc]
    simp only [getAccountWithTransactions, hf, htx]

/-- Witness for C9: a foreign-owned account id yields `none` exactly like a
nonexistent id, and adding a foreign-owned account to a store does not change
the caller's view. -/
theorem account_ownership_isolation_witness :
    getAccountWithTransactions 1 5 ⟨[⟨5, 2, "other", 0, true⟩], []⟩ = none ∧
    getAccountWithTransactions 1 5 ⟨[], []⟩ = none ∧
    getAccountWithTransactions 1 7
        ⟨[⟨7, 1, "mine", 3, true⟩, ⟨5, 2, "other", 0, true⟩], [⟨1, 7, 1, .INCOME, 2, 0⟩]⟩ =
      getAccountWithTransactions 1 7 ⟨[⟨7, 1, "mine", 3, true⟩], [⟨1, 7, 1, .INCOME, 2, 0⟩]⟩ := by
  refine ⟨account_ownership_isolation.1 1 5 ⟨[⟨5, 2, "other", 0, true⟩], []⟩ (by decide),
    account_ownership_isolation.1 1 5 ⟨[], []⟩ (by decide),
    account_ownership_isolation.2 1 7
      ⟨[⟨7, 1, "mine", 3, true⟩, ⟨5, 2, "other", 0, true⟩], [⟨1, 7, 1, .INCOME, 2, 0⟩]⟩
      ⟨[⟨7, 1, "mine", 3, true⟩], [⟨1, 7, 1, .INCOME, 2, 0⟩]⟩ (by decide) rfl⟩

/-! ## The default-singleton invariant -/

/-- Bridge from the nested-filter form of `defaultCount` to `countP`. -/
theorem defaultCount_eq_countP (s : Store) (u : Nat) :
    defaultCount s u = s.accounts.countP (fun a => a.userId == u && a.isDefault) := by
  rw [defaultCount, userAccounts, ← List.countP_eq_length_filter, List.countP_filter]
  exact List.countP_congr (fun a _ => by rw [Bool.and_comm])

/-- After the clear step, the caller has no default account. -/
theorem countP_clearDefaults_zero (u : Nat) (l : List Account) :
    (clearDefaults u l).countP (fun a => a.userId == u && a.isDefault) = 0 := by
  rw [clearDefaults, List.countP_map, List.countP_eq_zero]
  intro a _
  by_cases h : (a.userId == u && a.isDefault) = true
  · simp only [Function.comp_apply, if_pos h]
    simp
  · simp only [Function.comp_apply, if_neg h]
    exact h

/-- Under a per-account update preserving `id` and `userId`, the ids of the
caller's accounts are unchanged. -/
theorem filter_user_map_ids (l : List Account) (f : Account → Account)
    (hid : ∀ a, (f a).id = a.id) (hu : ∀ a, (f a).userId = a.userId) (u : Nat) :
    ((l.map f).filter (fun a => a.userId == u)).map (fun a => a.id) =
      (l.filter (fun a => a.userId == u)).map (fun a => a.id) := by
  induction l with
  | nil => simp
  | cons a as ih =>
    rw [List.map_cons, List.filter_cons, List.filter_cons, hu a]
    by_cases h : (a.userId == u) = true
    · rw [if_pos h, if_pos h, List.map_cons, List.map_cons, hid a, ih]
    · rw [if_neg h, if_neg h, ih]

/-- Setting the flag on the rows matched by `{id: accountId, userId}` after a
clear leaves exactly the matched rows as defaults. -/
theorem countP_set_default (u aid : Nat) (l : List Account)
    (hcl : ∀ b ∈ l, ¬((b.userId == u && b.isDefault) = true)) :
    (l.map (fun b =>
        if b.id == aid && b.userId == u then { b with isDefault := true } else b)).countP
        (fun a => a.userId == u && a.isDefault) =
      l.countP (fun b => b.id == aid && b.userId == u) := by
  rw [List.countP_map]
  refine List.countP_congr ?_
  intro b hb
  by_cases h : (b.id == aid && b.userId == u) = true
  · simp only [Function.comp_apply, if_pos h]
    rw [Bool.and_eq_true] at h
    simp [h.1, h.2]
  · simp only [Function.comp_apply, if_neg h]
    exact ⟨fun hc => absurd hc (hcl b hb), fun hc => absurd hc h⟩

/-- The clear step does not change which rows match an id/owner filter. -/
theorem countP_clear_iduser (u aid : Nat) (l : List Account) :
    (clearDefaults u l).countP (fun b => b.id == aid && b.userId == u) =
      l.countP (fun b => b.id == aid && b.userId == u) := by
  rw [clearDefaults, List.countP_map]
  refine List.countP_congr ?_
  intro b _
  by_cases h : (b.userId == u && b.isDefault) = true
  · simp only [Function.comp_apply, if_pos h]
  · simp only [Function.comp_apply, if_neg h]

/-- With store-generated (distinct) ids and a matching owned account, exactly
one account row matches the `{id: accountId, userId}` filter. -/
theorem countP_id_user_eq_one (l : List Account) (u aid : Nat)
    (hnd : ((l.filter (fun a => a.userId == u)).map (fun a => a.id)).Nodup)
    (hex : ∃ a ∈ l, (a.id == aid && a.userId == u) = true) :
    l.countP (fun a => a.id == aid && a.userId == u) = 1 := by
  rw [← List.countP_filter (fun a => a.id == aid) (fun a => a.userId == u) l]
  rw [show ((l.filter (fun a => a.userId == u)).countP (fun a => a.id == aid) =
      ((l.filter (fun a => a.userId == u)).map (fun a => a.id)).countP
        (fun x => x == aid)) from by rw [List.countP_map]; rfl]
  rw [← List.count_eq_countP]
  obtain ⟨a, ha, hpa⟩ := hex
  rw [Bool.and_eq_true, beq_iff_eq, beq_iff_eq] at hpa
  refine List.count_eq_one_of_mem hnd ?_
  rw [← hpa.1]
  exact List.mem_map_of_mem _ (List.mem_filter.mpr ⟨ha, by simp [hpa.2]⟩)

/-- Explicit shape of the store after a successful `createAccount`. -/
theorem createAccount_state (u : Nat) (d : CreateData) (nid : Nat) (s : Store) (v : Rat)
    (hp : parseFloat d.balance = some v) :
    (createAccount u d nid s).2 =
      ⟨(if (s.accounts.filter (fun a => a.userId == u)).length = 0 ∨ d.isDefault = true
          then clearDefaults u s.accounts else s.accounts) ++
        [⟨nid, u, d.name, v,
          if (s.accounts.filter (fun a => a.userId == u)).length = 0 then true
          else d.isDefault⟩],
       s.transactions⟩ := by
  by_cases hemp : (s.accounts.filter (fun a => a.userId == u)).length = 0
  · simp [createAccount, hp, hemp]
  · simp [createAccount, hp, hemp]

/-- `createAccount` preserves the default-singleton invariant when the store
generates a fresh id for the row. -/
theorem defOk_create (u : Nat) (d : CreateData) (nid : Nat) (s : Store)
    (hfresh : ∀ a ∈ s.accounts, a.id ≠ nid)
    (hok : DefOk u s) : DefOk u (createAccount u d nid s).2 := by
  obtain ⟨hnd, hone⟩ := hok
  rcases hp : parseFloat d.balance with _ | v
  · exact ⟨by simpa [createAccount, hp] using hnd, by simpa [createAccount, hp] using hone⟩
  · rw [createAccount_state u d nid s v hp]
    have hpre : ∀ pre : List Account,
        (pre = clearDefaults u s.accounts ∨ pre = s.accounts) →
        ((pre.filter (fun a => a.userId == u)).map (fun a => a.id)) =
          ((s.accounts.filter (fun a => a.userId == u)).map (fun a => a.id)) := by
      rintro pre (rfl | rfl)
      · rw [clearDefaults]
        refine filter_user_map_ids s.accounts _ ?_ ?_ u
        · intro a
          by_cases h : (a.userId == u && a.isDefault) = true
          · rw [if_pos h]
          · rw [if_neg h]
        · intro a
          by_cases h : (a.userId == u && a.isDefault) = true
          · rw [if_pos h]
          · rw [if_neg h]
      · rfl
    constructor
    · -- ids of the caller's accounts stay distinct
      rw [userAccounts]
      simp only [List.filter_append, List.map_append]
      have hids : (((if (s.accounts.filter (fun a => a.userId == u)).length = 0 ∨
            d.isDefault = true then clearDefaults u s.accounts
          else s.accounts).filter (fun a => a.userId == u)).map (fun a => a.id)) =
          ((s.accounts.filter (fun a => a.userId == u)).map (fun a => a.id)) := by
        by_cases hc : (s.accounts.filter (fun a => a.userId == u)).length = 0 ∨
            d.isDefault = true
        · rw [if_pos hc]
          exact hpre _ (Or.inl rfl)
        · rw [if_neg hc]
      rw [hids]
      rw [List.nodup_append]
      refine ⟨hnd, by simp, ?_⟩
      intro x hx hx2
      simp at hx2
      obtain ⟨a, ha, haid⟩ := List.mem_map.1 hx
      exact hfresh a (List.mem_filter.1 ha).1 (haid.trans hx2)
    · intro _
      rw [defaultCount_eq_countP]
      simp only [List.countP_append]
      by_cases hemp : (s.accounts.filter (fun a => a.userId == u)).length = 0
      · rw [if_pos (Or.inl hemp), if_pos hemp, countP_clearDefaults_zero]
        simp
      · by_cases hd : d.isDefault = true
        · rw [if_pos (Or.inr hd), if_neg hemp, hd, countP_clearDefaults_zero]
          simp
        · rw [if_neg (fun hor => hor.elim hemp hd), if_neg hemp]
          have hcnt : s.accounts.countP (fun a => a.userId == u && a.isDefault) = 1 := by
            rw [← defaultCount_eq_countP]
            refine hone ?_
            intro hcon
            exact hemp (by rw [userAccounts] at hcon; rw [hcon]; rfl)
          rw [hcnt]
          have : d.isDefault = false := Bool.eq_false_iff.mpr hd
          simp [this]

/-- Explicit shape of the store after a successful `updateDefaultAccount`. -/
theorem updateDefaultAccount_state_found (u aid : Nat) (s : Store) (b : Account)
    (hf : (clearDefaults u s.accounts).find? (fun a => a.id == aid && a.userId == u) = some b) :
    (updateDefaultAccount u aid s).2 =
      ⟨(clearDefaults u s.accounts).map (fun c =>
          if c.id == aid && c.userId == u then { c with isDefault := true } else c),
       s.transactions⟩ := by
  simp only [updateDefaultAccount, hf]

/-- `updateDefaultAccount` preserves the default-singleton invariant whenever
the requested account resolves to a row owned by the caller. -/
theorem defOk_setDefault (u aid : Nat) (s : Store)
    (hex : s.accounts.any (fun a => a.id == aid && a.userId == u) = true)
    (hok : DefOk u s) : DefOk u (updateDefaultAccount u aid s).2 := by
  obtain ⟨hnd, _⟩ := hok
  have hex2 : ∃ b ∈ clearDefaults u s.accounts, (b.id == aid && b.userId == u) = true := by
    rw [List.any_eq_true] at hex
    obtain ⟨a, ha, hpa⟩ := hex
    refine ⟨_, List.mem_map_of_mem _ ha, ?_⟩
    by_cases h : (a.userId == u && a.isDefault) = true
    · rw [if_pos h]
      simpa using hpa
    · rw [if_neg h]
      exact hpa
  rcases hf : (clearDefaults u s.accounts).find? (fun a => a.id == aid && a.userId == u)
    with _ | b
  · rw [List.find?_eq_none] at hf
    obtain ⟨b, hb, hpb⟩ := hex2
    exact absurd hpb (hf b hb)
  · rw [updateDefaultAccount_state_found u aid s b hf]
    have hidsu : ∀ f : Account → Account, (∀ a, (f a).id = a.id) →
        (∀ a, (f a).userId = a.userId) → ∀ l : List Account,
        (((l.map f).filter (fun a => a.userId == u)).map (fun a => a.id)) =
          ((l.filter (fun a => a.userId == u)).map (fun a => a.id)) := by
      intro f hid hu l
      exact filter_user_map_ids l f hid hu u
    constructor
    · rw [userAccounts]
      rw [hidsu _ ?_ ?_ (clearDefaults u s.accounts)]
      · rw [clearDefaults, hidsu _ ?_ ?_ s.accounts]
        · exact hnd
        · intro a
          by_cases h : (a.userId == u && a.isDefault) = true
          · rw [if_pos h]
          · rw [if_neg h]
        · intro a
          by_cases h : (a.userId == u && a.isDefault) = true
          · rw [if_pos h]
          · rw [if_neg h]
      · intro a
        by_cases h : (a.id == aid && a.userId == u) = true
        · rw [if_pos h]
        · rw [if_neg h]
      · intro a
        by_cases h : (a.id == aid && a.userId == u) = true
        · rw [if_pos h]
        · rw [if_neg h]
    · intro _
      have hcl : ∀ b2 ∈ clearDefaults u s.accounts,
          ¬((b2.userId == u && b2.isDefault) = true) := by
        have h0 := countP_clearDefaults_zero u s.accounts
        rw [List.countP_eq_zero] at h0
        exact h0
      rw [defaultCount_eq_countP]
      show ((clearDefaults u s.accounts).map (fun c =>
          if c.id == aid && c.userId == u then { c with isDefault := true } else c)).countP
            (fun a => a.userId == u && a.isDefault) = 1
      rw [countP_set_default u aid _ hcl, countP_clear_iduser]
      refine countP_id_user_eq_one s.accounts u aid hnd ?_
      rw [List.any_eq_true] at hex
      exact hex

/-- Any `okAcctRun`-conforming sequence preserves the default-singleton
invariant. -/
theorem defOk_run (u : Nat) (s : Store) (ops : List AcctOp)
    (hok : okAcctRun u s ops = true) (h0 : DefOk u s) :
    DefOk u (runAcctOps u s ops) := by
  induction ops generalizing s with
  | nil => simpa [runAcctOps] using h0
  | cons op rest ih =>
    have hstep : runAcctOps u s (op :: rest) = runAcctOps u (applyAcctOp u s op) rest := by
      rw [runAcctOps, runAcctOps, List.foldl_cons]
    rw [hstep]
    cases op with
    | create d nid =>
      rw [okAcctRun, Bool.and_eq_true] at hok
      refine ih _ hok.2 ?_
      have hfr : ∀ a ∈ s.accounts, a.id ≠ nid := by
        have h1 := hok.1
        rw [List.all_eq_true] at h1
        intro a ha
        have := h1 a ha
        simpa using this
      exact defOk_create u d nid s hfr h0
    | setDefault aid =>
      rw [okAcctRun, Bool.and_eq_true] at hok
      exact ih _ hok.2 (defOk_setDefault u aid s hok.1 h0)

/-- C1 (counterexample to the claim as stated): starting from no accounts, a
`createAccount` followed by an `updateDefaultAccount` call with an id that
resolves to no owned account — both calls executed to completion — leaves the
user with one account and zero defaults, because the failing call has already
committed its clear step. -/
theorem default_singleton_cex :
    userAccounts (runAcctOps 1 ⟨[], []⟩
        [.create ⟨"Main", "0", true⟩ 1, .setDefault 999]) 1 ≠ [] ∧
    defaultCount (runAcctOps 1 ⟨[], []⟩
        [.create ⟨"Main", "0", true⟩ 1, .setDefault 999]) 1 = 0 := by
  constructor
  · simp +decide [runAcctOps, applyAcctOp, createAccount, updateDefaultAccount, clearDefaults,
      parseFloat, parseUnsigned, parseExpVal, parseExpTail, applyExp, digitsVal, userAccounts]
  · simp +decide [runAcctOps, applyAcctOp, createAccount, updateDefaultAccount, clearDefaults,
      parseFloat, parseUnsigned, parseExpVal, parseExpTail, applyExp, digitsVal, userAccounts,
      defaultCount]

/-- C1 (amended): for every user starting with no accounts, after any sequence
of `createAccount` calls (with store-generated fresh ids) and
`updateDefaultAccount` calls that resolve to an owned account, the user has
exactly one default account when they have at least one account, and zero
defaults when they have none. -/
theorem default_singleton_ok (u : Nat) (s : Store) (ops : List AcctOp)
    (h0 : userAccounts s u = []) (hok : okAcctRun u s ops = true) :
    (userAccounts (runAcctOps u s ops) u ≠ [] →
      defaultCount (runAcctOps u s ops) u = 1) ∧
    (userAccounts (runAcctOps u s ops) u = [] →
      defaultCount (runAcctOps u s ops) u = 0) := by
  have hdef : DefOk u s := by
    constructor
    · rw [h0]
      exact List.nodup_nil
    · intro hne
      exact absurd h0 hne
  have h := defOk_run u s ops hok hdef
  refine ⟨h.2, ?_⟩
  intro hemp
  simp [defaultCount, hemp]

/-- Witness for C1: creating a first account and then switching the default to
it yields one account and exactly one default. -/
theorem default_singleton_ok_witness :
    userAccounts (runAcctOps 1 ⟨[], []⟩
        [.create ⟨"Main", "0", false⟩ 1, .setDefault 1]) 1 ≠ [] ∧
    defaultCount (runAcctOps 1 ⟨[], []⟩
        [.create ⟨"Main", "0", false⟩ 1, .setDefault 1]) 1 = 1 := by
  have h := default_singleton_ok 1 ⟨[], []⟩
    [.create ⟨"Main", "0", false⟩ 1, .setDefault 1] rfl (by decide)
  have hne : userAccounts (runAcctOps 1 ⟨[], []⟩
      [.create ⟨"Main", "0", false⟩ 1, .setDefault 1]) 1 ≠ [] := by
    simp +decide [runAcctOps, applyAcctOp, createAccount, updateDefaultAccount, clearDefaults,
      parseFloat, parseUnsigned, parseExpVal, parseExpTail, applyExp, digitsVal, userAccounts]
  exact ⟨hne, h.1 hne⟩

/-! ## The balance invariant -/

